import Mathlib

/- Shallow embedding of src/main.py (AndromedaBot): a chat bot that computes
the ANDR market capitalization by fetching a circulating-supply value and a
spot price from two HTTP endpoints, with bounded retries, two single-slot
TTL caches, and a formatted reply.

Python-level effects are made explicit:
- the clock is a parameter `now : ℚ` (seconds);
- each cachetools TTLCache with maxsize 1 is a `Cache` value threaded through;
- the network is a sequence of per-attempt outcomes `seq : ℕ → Attempt`;
- a Python exception that propagates out of a function is the `raises`
  constructor of the function's outcome type. -/

namespace AndromedaBot

/-- JSON values, as produced by aiohttp response.json(). Python maps JSON
null to None; where that matters the embedding folds null into the Python
None value (see fetch_url_with_retries). -/
inductive Json where
  | null
  | bool (b : Bool)
  | num (q : ℚ)
  | str (s : String)
  | arr (elems : List Json)
  | obj (fields : List (String × Json))

/-- Key string used by get_andr_price on line 51 and 53 of src/main.py. -/
def dataKey : String := "data"

/-- Key string used by get_andr_price on line 53 of src/main.py. -/
def lastKey : String := "last"

/-- Distinguishes the Python exception classes that the two providers catch:
get_circulating_supply catches only ValueError (line 38), get_andr_price
catches ValueError, KeyError and TypeError (line 56). -/
inductive PyErr where
  | valueError
  | typeError
deriving DecidableEq

/-- Helper for Python float(str): all characters are decimal digits. -/
def allDigits (l : List Char) : Bool := l.all Char.isDigit

/-- Helper for Python float(str): value of a most-significant-first digit
list, with accumulator. -/
def digitsValAux (acc : ℕ) : List Char → ℕ
  | [] => acc
  | c :: cs => digitsValAux (acc * 10 + (c.toNat - 48)) cs

/-- Helper for Python float(str): split a character list at the first dot,
returning the part before it and, when a dot occurs, the part after it. -/
def splitDotAux : List Char → List Char × Option (List Char)
  | [] => ([], none)
  | '.' :: r => ([], some r)
  | c :: r =>
      match splitDotAux r with
      | (i, f) => (c :: i, f)

/-- Python float(str) on an unsigned literal: digits with an optional
fractional part. Models the plain decimal forms of Python float strings;
scientific notation, inf/nan, surrounding whitespace and underscores are
not modelled (no claim depends on them). -/
def parseUnsigned (cs : List Char) : Option ℚ :=
  match splitDotAux cs with
  | (i, none) =>
      if !i.isEmpty && allDigits i then some ((digitsValAux 0 i : ℕ) : ℚ) else none
  | (i, some f) =>
      if (!i.isEmpty || !f.isEmpty) && allDigits i && allDigits f then
        some (((digitsValAux 0 i : ℕ) : ℚ) + ((digitsValAux 0 f : ℕ) : ℚ) / ((10 : ℚ) ^ f.length))
      else none

/-- Python float(str) with an optional sign; none means ValueError. -/
def parseDecimal (s : String) : Option ℚ :=
  match s.data with
  | '-' :: r => (parseUnsigned r).map (fun q => -q)
  | '+' :: r => parseUnsigned r
  | r => parseUnsigned r

/-- Python float(x) on a decoded JSON value: numbers and booleans convert,
strings parse as decimal literals or raise ValueError, every other shape
raises TypeError. Used by get_circulating_supply (line 35) and, through the
record extraction, by get_andr_price (line 53). -/
def pyFloat : Json → Except PyErr ℚ
  | .num q => .ok q
  | .bool b => .ok (if b then 1 else 0)
  | .str s =>
      match parseDecimal s with
      | some q => .ok q
      | none => .error .valueError
  | .null => .error .typeError
  | .arr _ => .error .typeError
  | .obj _ => .error .typeError

/-- Python truthiness of a decoded JSON value, as tested by the condition
on line 51 of src/main.py. -/
def truthy : Json → Bool
  | .null => false
  | .bool b => b
  | .num q => if q = 0 then false else true
  | .str s => !s.isEmpty
  | .arr l => !l.isEmpty
  | .obj l => !l.isEmpty

/-- Python len(x) on a decoded JSON value; none means len raises TypeError
(numbers, booleans, None have no length). Used on line 51 of src/main.py. -/
def pyLen : Json → Option ℕ
  | .str s => some s.length
  | .arr l => some l.length
  | .obj l => some l.length
  | _ => none

/-- Whether a JSON value equals the Python string constant used as the key:
list membership on line 51 compares elements with equality. -/
def isStrData : Json → Bool
  | .str s => s = dataKey
  | _ => false

/-- Bool prefix test on character lists, for Python substring membership. -/
def isPrefixOfB : List Char → List Char → Bool
  | [], _ => true
  | _ :: _, [] => false
  | a :: as, b :: bs => a == b && isPrefixOfB as bs

/-- Bool substring test on character lists. -/
def containsListB (needle : List Char) : List Char → Bool
  | [] => isPrefixOfB needle []
  | h :: t => isPrefixOfB needle (h :: t) || containsListB needle t

/-- Python substring membership test, for the case where line 51 of
src/main.py evaluates a string on the left of the in operator. -/
def pyStrContains (needle hay : String) : Bool := containsListB needle.data hay.data

/-- One network attempt as seen by the retry client: either an HTTP response
with a status and a body (the body is the decoded JSON when response.json()
would succeed, none when it would raise), or a transport/timeout exception. -/
inductive Attempt where
  | resp (status : ℕ) (body : Option Json)
  | err

/-- Whether an attempt is a response with a server-error status. With the
options built on line 21 of src/main.py, these are the only statuses the
retry client retries. -/
def Attempt.isServerErr : Attempt → Bool
  | .resp st _ => decide (500 ≤ st)
  | .err => false

/-- Outcome of the retry loop: the response it returned, or a raised
exception. -/
inductive GetOutcome where
  | resp (status : ℕ) (body : Option Json)
  | raised

/-- The retry loop of the aiohttp_retry RetryClient as configured on lines
21-23 of src/main.py: ExponentialRetry with attempts 3 and factor 0.5 keeps
its defaults for everything else, so its status set and exception set are
empty and retry_all_server_errors is true. Per iteration: a raised
exception is re-raised at once (the empty exception set never matches); a
response is returned when its status is acceptable (below 500) or when the
attempt budget is exhausted, and retried otherwise. `fuel` is the number of
attempts still allowed including the current one, `issued` counts requests
already sent; the result pairs the total requests issued with the outcome.
Backoff delays are timing only and are not modelled. -/
def retryGo (seq : ℕ → Attempt) : ℕ → ℕ → ℕ × GetOutcome
  | 0, issued => (issued, .raised)
  | fuel + 1, issued =>
      match seq issued with
      | .err => (issued + 1, .raised)
      | .resp st b =>
          if st < 500 ∨ fuel = 0 then (issued + 1, .resp st b)
          else retryGo seq fuel (issued + 1)

/-- Result of fetch_url_with_retries as observed by its callers: a non-None
decoded JSON value, the Python None value (returned on a non-200 status,
line 27, and also produced by a 200 body decoding to JSON null), or a
propagating exception (transport errors re-raised by the retry client, or
response.json() raising on an undecodable 200 body, lines 23-25). -/
inductive FetchResult where
  | val (j : Json)
  | none_
  | raises

/-- Lines 20-27 of src/main.py: run the retry loop with 3 attempts; on a
200 response decode the body (raising when it is undecodable, and yielding
Python None when it is JSON null), otherwise log and return None. Paired
with the number of HTTP requests issued. -/
def fetch_url_with_retries (seq : ℕ → Attempt) : ℕ × FetchResult :=
  match retryGo seq 3 0 with
  | (n, .raised) => (n, .raises)
  | (n, .resp st b) =>
      if st = 200 then
        match b with
        | some .null => (n, .none_)
        | some j => (n, .val j)
        | none => (n, .raises)
      else (n, .none_)

/-- One single-slot TTLCache (cachetools, maxsize 1): the most recent value
together with the time it was written, if any. -/
structure Cache where
  entry : Option (ℚ × ℚ)
deriving DecidableEq

/-- cachetools TTLCache lookup via dict.get with default None: the stored
value while the entry is younger than the TTL, absent from expiry onwards
(an entry written at time T is expired at every time ≥ T + ttl). -/
def cacheGet (ttl now : ℚ) (c : Cache) : Option ℚ :=
  match c.entry with
  | none => none
  | some (v, t) => if now < t + ttl then some v else none

/-- cachetools TTLCache item assignment: overwrite the single slot with the
new value, timestamped now. -/
def cacheWrite (now v : ℚ) (_c : Cache) : Cache := ⟨some (v, now)⟩

/-- TTL of circulating_supply_cache, line 13 of src/main.py (24 hours). -/
def supplyTTL : ℚ := 86400

/-- TTL of price_cache, line 14 of src/main.py (5 minutes). -/
def priceTTL : ℚ := 300

/-- Outcome of a provider call: a returned value (a float or Python None),
or a propagating exception. -/
inductive POutcome where
  | ret (v : Option ℚ)
  | raises
deriving DecidableEq

/-- Lines 29-45 of src/main.py, with the fetch result, the clock and the
supply cache passed explicitly. When the fetch returned a non-None value,
float(data) is attempted: on success the cache is overwritten and the value
returned; a ValueError is caught and control falls through to the cache
read; a TypeError is not caught and propagates. When the fetch returned
None, the cache read is returned. An exception from the fetch itself
propagates (nothing catches it). -/
def get_circulating_supply (fr : FetchResult) (now : ℚ) (c : Cache) : POutcome × Cache :=
  match fr with
  | .raises => (.raises, c)
  | .none_ => (.ret (cacheGet supplyTTL now c), c)
  | .val j =>
      match pyFloat j with
      | .ok v => (.ret (some v), cacheWrite now v c)
      | .error .valueError => (.ret (cacheGet supplyTTL now c), c)
      | .error .typeError => (.raises, c)

/-- Extraction step inside the try block of get_andr_price (lines 52-57 of
src/main.py): float(d[0][lastKey]) where d is the value at dataKey. Every
exception this step can raise (ValueError, KeyError, TypeError: indexing a
dict with 0, a missing last key, subscripting a scalar, an inconvertible
value) is caught by line 56, so the embedding collapses them to none. -/
def extractLast : Json → Option ℚ
  | .arr (x :: _) =>
      match x with
      | .obj fields =>
          match fields.lookup lastKey with
          | some v =>
              match pyFloat v with
              | .ok q => some q
              | .error _ => none
          | none => none
      | _ => none
  | _ => none

/-- Lines 48-59 of src/main.py, with the fetch result, the clock and the
price cache passed explicitly. The guard on line 51 evaluates left to
right: a falsy or None value fails the guard; the in test raises TypeError
on numbers and booleans; subscripting a string or list with a string key
raises TypeError; len raises TypeError on scalars. None of these guard
exceptions is caught (the try starts at line 52). When the guard passes,
the extraction runs with its exceptions caught; on success the cache is
overwritten and the value returned, otherwise the cache read is returned. -/
def get_andr_price (fr : FetchResult) (now : ℚ) (c : Cache) : POutcome × Cache :=
  match fr with
  | .raises => (.raises, c)
  | .none_ => (.ret (cacheGet priceTTL now c), c)
  | .val j =>
      if truthy j then
        match j with
        | .obj fields =>
            match fields.lookup dataKey with
            | none => (.ret (cacheGet priceTTL now c), c)
            | some d =>
                match pyLen d with
                | none => (.raises, c)
                | some n =>
                    if n = 0 then (.ret (cacheGet priceTTL now c), c)
                    else
                      match extractLast d with
                      | some v => (.ret (some v), cacheWrite now v c)
                      | none => (.ret (cacheGet priceTTL now c), c)
        | .str s =>
            if pyStrContains dataKey s then (.raises, c)
            else (.ret (cacheGet priceTTL now c), c)
        | .arr l =>
            if l.any isStrData then (.raises, c)
            else (.ret (cacheGet priceTTL now c), c)
        | _ => (.raises, c)
      else (.ret (cacheGet priceTTL now c), c)

/-- Provider over the wire: get_circulating_supply composed with its fetch
(line 31 of src/main.py). -/
def run_get_circulating_supply (seq : ℕ → Attempt) (now : ℚ) (c : Cache) : POutcome × Cache :=
  get_circulating_supply (fetch_url_with_retries seq).2 now c

/-- Provider over the wire: get_andr_price composed with its fetch (line 50
of src/main.py). -/
def run_get_andr_price (seq : ℕ → Attempt) (now : ℚ) (c : Cache) : POutcome × Cache :=
  get_andr_price (fetch_url_with_retries seq).2 now c

/-- Integer exponent powers of two over ℚ, executable on both signs. -/
def pow2 : ℤ → ℚ
  | .ofNat n => ((2 ^ n : ℕ) : ℚ)
  | .negSucc n => 1 / ((2 ^ (n + 1) : ℕ) : ℚ)

/-- Fuel-driven binary search for the floor of the base-two logarithm of a
positive rational. The fuel covers every exponent a binary64 value can
have. -/
def floorLog2Aux : ℕ → ℚ → ℤ → ℤ
  | 0, _, e => e
  | fuel + 1, q, e =>
      if q < 1 then floorLog2Aux fuel (q * 2) (e - 1)
      else if 2 ≤ q then floorLog2Aux fuel (q / 2) (e + 1)
      else e

/-- Floor of the base-two logarithm of a positive rational. -/
def floorLog2 (q : ℚ) : ℤ := floorLog2Aux 4400 q 0

/-- Round a rational to the nearest integer, ties to even: the rounding
Python applies both in binary64 arithmetic and in string formatting. -/
def rne (q : ℚ) : ℤ :=
  let f : ℤ := Rat.floor q
  let r : ℚ := q - (f : ℚ)
  if r < 1 / 2 then f
  else if 1 / 2 < r then f + 1
  else if f % 2 = 0 then f else f + 1

/-- Round a positive rational to 53 significant binary digits, nearest,
ties to even. -/
def roundPosDouble (q : ℚ) : ℚ :=
  let e := floorLog2 q
  ((rne (q * pow2 (52 - e)) : ℤ) : ℚ) * pow2 (e - 52)

/-- The IEEE-754 binary64 value nearest a rational (round to nearest, ties
to even), for values in the normal range; overflow and subnormals are not
modelled (no claim leaves the normal range). -/
def roundDouble (q : ℚ) : ℚ :=
  if q = 0 then 0
  else if 0 < q then roundPosDouble q
  else -roundPosDouble (-q)

/-- Python float multiplication on line 74 of src/main.py: the exact
product of the two binary64 operands, rounded back to binary64. -/
def mulDouble (x y : ℚ) : ℚ := roundDouble (x * y)

/-- Decimal digit character. -/
def digitChar : ℕ → Char
  | 0 => '0'
  | 1 => '1'
  | 2 => '2'
  | 3 => '3'
  | 4 => '4'
  | 5 => '5'
  | 6 => '6'
  | 7 => '7'
  | 8 => '8'
  | _ => '9'

/-- Decimal digits of a natural number, least significant first, with fuel
(40 digits is far beyond every value the program prints). -/
def natDigitsRev : ℕ → ℕ → List Char
  | 0, _ => []
  | _ + 1, 0 => []
  | fuel + 1, n => digitChar (n % 10) :: natDigitsRev fuel (n / 10)

/-- Insert a comma after every three digits of a least-significant-first
digit list, never at the outer end: the thousands grouping of Python
format with a comma. -/
def commasRev : List Char → ℕ → List Char
  | [], _ => []
  | [c], _ => [c]
  | c :: rest, k =>
      if k = 2 then c :: ',' :: commasRev rest 0
      else c :: commasRev rest (k + 1)

/-- A natural number in decimal with thousands separators. -/
def commaGroup (n : ℕ) : String :=
  if n = 0 then "0" else String.mk (commasRev (natDigitsRev 40 n) 0).reverse

/-- Line 75 of src/main.py: the format string applied to the binary64
market cap rounds its exact value to the nearest integer (ties to even),
groups thousands with commas, and prefixes a dollar sign; the sign of a
negative value precedes the digits. -/
def format_market_cap (q : ℚ) : String :=
  "$" ++ (if q < 0 then "-" else "") ++ commaGroup (rne q).natAbs

/-- The user-visible failure text on line 71 of src/main.py. -/
def failText : String := "Failed to fetch data, please try again later."

/-- The reply prefix on line 76 of src/main.py. -/
def replyPrefix : String := "ANDR Market Cap: "

/-- Lines 70-76 of src/main.py: the reply text chosen from the two provider
return values; when either is None the failure text is sent, otherwise the
formatted product. -/
def market_cap_reply (supply price : Option ℚ) : String :=
  match supply, price with
  | some s, some p => replyPrefix ++ format_market_cap (mulDouble s p)
  | _, _ => failText

/-- The two module-level caches of src/main.py (lines 13-14). -/
structure Caches where
  circulating_supply_cache : Cache
  price_cache : Cache
deriving DecidableEq

/-- Outcome of the market_cap handler: a reply message, or a propagating
exception. -/
inductive MCOutcome where
  | reply (text : String)
  | raises
deriving DecidableEq

/-- Lines 66-76 of src/main.py: fetch the supply, then the price, then
reply. An exception from either provider propagates (the price provider is
never reached when the supply provider raises). -/
def market_cap (supSeq priSeq : ℕ → Attempt) (now : ℚ) (cs : Caches) : MCOutcome × Caches :=
  match run_get_circulating_supply supSeq now cs.circulating_supply_cache with
  | (POutcome.raises, c1) => (.raises, ⟨c1, cs.price_cache⟩)
  | (POutcome.ret s, c1) =>
      match run_get_andr_price priSeq now cs.price_cache with
      | (POutcome.raises, c2) => (.raises, ⟨c1, c2⟩)
      | (POutcome.ret p, c2) => (.reply (market_cap_reply s p), ⟨c1, c2⟩)

/-- Classification of a provider call, fixed by its fetch result alone: it
either raises, or succeeds with a value (and a cache write), or falls back
to a cache read. -/
inductive PClass where
  | raises
  | success (v : ℚ)
  | fallback
deriving DecidableEq

/-- The class a fetch result drives get_circulating_supply into. -/
def supplyClass : FetchResult → PClass
  | .raises => .raises
  | .none_ => .fallback
  | .val j =>
      match pyFloat j with
      | .ok v => .success v
      | .error .valueError => .fallback
      | .error .typeError => .raises

/-- The class a fetch result drives get_andr_price into. -/
def priceClass : FetchResult → PClass
  | .raises => .raises
  | .none_ => .fallback
  | .val j =>
      if truthy j then
        match j with
        | .obj fields =>
            match fields.lookup dataKey with
            | none => .fallback
            | some d =>
                match pyLen d with
                | none => .raises
                | some n =>
                    if n = 0 then .fallback
                    else
                      match extractLast d with
                      | some v => .success v
                      | none => .fallback
        | .str s => if pyStrContains dataKey s then .raises else .fallback
        | .arr l => if l.any isStrData then .raises else .fallback
        | _ => .raises
      else .fallback

/-- The outcome and cache effect determined by a provider class. -/
def classAct (k : PClass) (ttl now : ℚ) (c : Cache) : POutcome × Cache :=
  match k with
  | .raises => (.raises, c)
  | .success v => (.ret (some v), cacheWrite now v c)
  | .fallback => (.ret (cacheGet ttl now c), c)

lemma supply_eq_classAct (fr : FetchResult) (now : ℚ) (c : Cache) :
    get_circulating_supply fr now c = classAct (supplyClass fr) supplyTTL now c := by
  cases fr with
  | raises => rfl
  | none_ => rfl
  | val j =>
      rcases hp : pyFloat j with e | v
      · cases e <;> simp [get_circulating_supply, supplyClass, hp, classAct]
      · simp [get_circulating_supply, supplyClass, hp, classAct]

lemma price_eq_classAct (fr : FetchResult) (now : ℚ) (c : Cache) :
    get_andr_price fr now c = classAct (priceClass fr) priceTTL now c := by
  cases fr with
  | raises => rfl
  | none_ => rfl
  | val j =>
      cases j with
      | null => rfl
      | bool b => cases b <;> rfl
      | num q =>
          by_cases hq : q = 0 <;> simp [get_andr_price, priceClass, truthy, hq, classAct]
      | str s =>
          cases he : s.isEmpty with
          | true => simp [get_andr_price, priceClass, truthy, he, classAct]
          | false =>
              by_cases hc : pyStrContains dataKey s <;>
                simp [get_andr_price, priceClass, truthy, he, hc, classAct]
      | arr l =>
          cases he : l.isEmpty with
          | true => simp [get_andr_price, priceClass, truthy, he, classAct]
          | false =>
              by_cases ha : l.any isStrData <;>
                simp [get_andr_price, priceClass, truthy, he, ha, classAct]
      | obj fields =>
          cases he : fields.isEmpty with
          | true => simp [get_andr_price, priceClass, truthy, he, classAct]
          | false =>
              rcases hl : fields.lookup dataKey with _ | d
              · simp [get_andr_price, priceClass, truthy, he, hl, classAct]
              · rcases hn : pyLen d with _ | n
                · simp [get_andr_price, priceClass, truthy, he, hl, hn, classAct]
                · by_cases h0 : n = 0
                  · simp [get_andr_price, priceClass, truthy, he, hl, hn, h0, classAct]
                  · rcases hx : extractLast d with _ | v <;>
                      simp [get_andr_price, priceClass, truthy, he, hl, hn, h0, hx, classAct]

/-- Unfolding helper: one iteration of the retry loop. -/
lemma retryGo_succ (seq : ℕ → Attempt) (fuel issued : ℕ) :
    retryGo seq (fuel + 1) issued =
      match seq issued with
      | Attempt.err => (issued + 1, GetOutcome.raised)
      | Attempt.resp st b =>
          if st < 500 ∨ fuel = 0 then (issued + 1, GetOutcome.resp st b)
          else retryGo seq fuel (issued + 1) := rfl

lemma retryGo_err (seq : ℕ → Attempt) (fuel issued : ℕ) (h : seq issued = Attempt.err) :
    retryGo seq (fuel + 1) issued = (issued + 1, GetOutcome.raised) := by
  rw [retryGo_succ, h]

lemma retryGo_retry (seq : ℕ → Attempt) (fuel issued st : ℕ) (b : Option Json)
    (h : seq issued = Attempt.resp st b) (hst : 500 ≤ st) (hf : fuel ≠ 0) :
    retryGo seq (fuel + 1) issued = retryGo seq fuel (issued + 1) := by
  rw [retryGo_succ, h]
  exact if_neg (by omega)

lemma retryGo_return (seq : ℕ → Attempt) (fuel issued st : ℕ) (b : Option Json)
    (h : seq issued = Attempt.resp st b) (hcond : st < 500 ∨ fuel = 0) :
    retryGo seq (fuel + 1) issued = (issued + 1, GetOutcome.resp st b) := by
  rw [retryGo_succ, h]
  exact if_pos hcond

/-- Unfolding helper for the fetch wrapper. -/
lemma fetch_eq (seq : ℕ → Attempt) :
    fetch_url_with_retries seq =
      match retryGo seq 3 0 with
      | (n, GetOutcome.raised) => (n, FetchResult.raises)
      | (n, GetOutcome.resp st b) =>
          if st = 200 then
            match b with
            | some Json.null => (n, FetchResult.none_)
            | some j => (n, FetchResult.val j)
            | none => (n, FetchResult.raises)
          else (n, FetchResult.none_) := rfl

lemma fetch_of_retry_resp (seq : ℕ → Attempt) (n st : ℕ) (b : Option Json)
    (h : retryGo seq 3 0 = (n, GetOutcome.resp st b)) (hne : st ≠ 200) :
    fetch_url_with_retries seq = (n, FetchResult.none_) := by
  rw [fetch_eq, h]
  exact if_neg hne

lemma fetch_of_retry_raised (seq : ℕ → Attempt) (n : ℕ)
    (h : retryGo seq 3 0 = (n, GetOutcome.raised)) :
    fetch_url_with_retries seq = (n, FetchResult.raises) := by
  rw [fetch_eq, h]

lemma isServerErr_elim {a : Attempt} (h : a.isServerErr = true) :
    ∃ st b, a = Attempt.resp st b ∧ 500 ≤ st := by
  cases a with
  | err => simp [Attempt.isServerErr] at h
  | resp st b => exact ⟨st, b, rfl, by simpa [Attempt.isServerErr] using h⟩

lemma retryGo_fst_le (seq : ℕ → Attempt) : ∀ fuel issued, (retryGo seq fuel issued).1 ≤ issued + fuel := by
  intro fuel
  induction fuel with
  | zero => intro issued; simp [retryGo]
  | succ n ih =>
      intro issued
      rw [retryGo_succ]
      cases hs : seq issued with
      | err => show issued + 1 ≤ issued + (n + 1); omega
      | resp st b =>
          show (if st < 500 ∨ n = 0 then (issued + 1, GetOutcome.resp st b)
                else retryGo seq n (issued + 1)).1 ≤ issued + (n + 1)
          by_cases hc : st < 500 ∨ n = 0
          · rw [if_pos hc]; show issued + 1 ≤ issued + (n + 1); omega
          · rw [if_neg hc]
            have := ih (issued + 1)
            omega

lemma fetch_fst (seq : ℕ → Attempt) :
    (fetch_url_with_retries seq).1 = (retryGo seq 3 0).1 := by
  rw [fetch_eq]
  rcases hr : retryGo seq 3 0 with ⟨n, o⟩
  cases o with
  | raised => rfl
  | resp st b =>
      by_cases h200 : st = 200
      · subst h200
        cases b with
        | none => rfl
        | some j => cases j <;> simp
      · simp [h200]

lemma cacheGet_window (ttl t1 t2 : ℚ) (c : Cache) (ht : t1 ≤ t2)
    (h : ∀ v T, c.entry = some (v, T) → t2 < T + ttl) :
    cacheGet ttl t1 c = cacheGet ttl t2 c := by
  rcases hc : c.entry with _ | ⟨v, T⟩
  · simp [cacheGet, hc]
  · have h2 := h v T hc
    have h1 : t1 < T + ttl := lt_of_le_of_lt ht h2
    simp [cacheGet, hc, h1, h2]

/-- The whole handler, rephrased through the two provider classes. -/
lemma market_cap_class (supSeq priSeq : ℕ → Attempt) (now : ℚ) (cs : Caches) :
    market_cap supSeq priSeq now cs =
      match supplyClass (fetch_url_with_retries supSeq).2,
            priceClass (fetch_url_with_retries priSeq).2 with
      | PClass.raises, _ => (MCOutcome.raises, cs)
      | PClass.success v, PClass.raises =>
          (MCOutcome.raises, ⟨cacheWrite now v cs.circulating_supply_cache, cs.price_cache⟩)
      | PClass.success v, PClass.success w =>
          (MCOutcome.reply (market_cap_reply (some v) (some w)),
            ⟨cacheWrite now v cs.circulating_supply_cache, cacheWrite now w cs.price_cache⟩)
      | PClass.success v, PClass.fallback =>
          (MCOutcome.reply (market_cap_reply (some v) (cacheGet priceTTL now cs.price_cache)),
            ⟨cacheWrite now v cs.circulating_supply_cache, cs.price_cache⟩)
      | PClass.fallback, PClass.raises =>
          (MCOutcome.raises, cs)
      | PClass.fallback, PClass.success w =>
          (MCOutcome.reply (market_cap_reply (cacheGet supplyTTL now cs.circulating_supply_cache) (some w)),
            ⟨cs.circulating_supply_cache, cacheWrite now w cs.price_cache⟩)
      | PClass.fallback, PClass.fallback =>
          (MCOutcome.reply (market_cap_reply (cacheGet supplyTTL now cs.circulating_supply_cache)
              (cacheGet priceTTL now cs.price_cache)),
            ⟨cs.circulating_supply_cache, cs.price_cache⟩) := by
  unfold market_cap run_get_circulating_supply run_get_andr_price
  rw [supply_eq_classAct, price_eq_classAct]
  rcases supplyClass (fetch_url_with_retries supSeq).2 with _ | v | _ <;>
    rcases priceClass (fetch_url_with_retries priSeq).2 with _ | w | _ <;>
    rfl

/-- Shape of JSON values Python float converts without a TypeError. -/
def coercibleShape : Json → Bool
  | .num _ => true
  | .bool _ => true
  | .str _ => true
  | _ => false

/-- Shape of a price response object whose guard evaluates without raising:
the data field is absent or holds a list. -/
def dataShapeSafe (fields : List (String × Json)) : Bool :=
  match fields.lookup dataKey with
  | none => true
  | some (.arr _) => true
  | some _ => false

lemma classAct_ne_raises (k : PClass) (ttl now : ℚ) (c : Cache) (h : k ≠ PClass.raises) :
    ∃ r, (classAct k ttl now c).1 = POutcome.ret r := by
  cases k with
  | raises => exact absurd rfl h
  | success v => exact ⟨some v, rfl⟩
  | fallback => exact ⟨cacheGet ttl now c, rfl⟩

lemma supplyClass_coercible_ne_raises (j : Json) (hj : coercibleShape j = true) :
    supplyClass (FetchResult.val j) ≠ PClass.raises := by
  cases j with
  | num q => simp [supplyClass, pyFloat]
  | bool b => simp [supplyClass, pyFloat]
  | str s => rcases hp : parseDecimal s with _ | v <;> simp [supplyClass, pyFloat, hp]
  | null => simp [coercibleShape] at hj
  | arr l => simp [coercibleShape] at hj
  | obj fields => simp [coercibleShape] at hj

lemma priceClass_safe_ne_raises (fields : List (String × Json))
    (hf : dataShapeSafe fields = true) :
    priceClass (FetchResult.val (Json.obj fields)) ≠ PClass.raises := by
  unfold dataShapeSafe at hf
  cases he : fields.isEmpty with
  | true => simp [priceClass, truthy, he]
  | false =>
      rcases hl : fields.lookup dataKey with _ | d
      · simp [priceClass, truthy, he, hl]
      · rw [hl] at hf
        cases d with
        | arr l =>
            rcases l with _ | ⟨x, xs⟩
            · simp [priceClass, truthy, he, hl, pyLen]
            · rcases hx : extractLast (Json.arr (x :: xs)) with _ | v <;>
                simp [priceClass, truthy, he, hl, pyLen, hx]
        | null => simp at hf
        | bool b => simp at hf
        | num q => simp at hf
        | str s => simp at hf
        | obj l => simp at hf

section ClaimProofs

attribute [local semireducible] Rat.add Rat.mul Rat.inv Rat.sub Rat.ofScientific

/-- C1 counterexample: one invocation whose fetch suffers a transport error
on its first attempt, with an unexpired cached supply (42, written at time
0, read at time 10, well inside the 24-hour TTL). The claim requires the
provider to return the cached 42; the code instead lets the exception
propagate out of the provider. -/
theorem c1_counterexample :
    cacheGet supplyTTL 10 ⟨some (42, 0)⟩ = some 42 ∧
    run_get_circulating_supply (fun _ => Attempt.err) 10 ⟨some (42, 0)⟩
      = (POutcome.raises, ⟨some (42, 0)⟩) := by
  exact ⟨by decide, rfl⟩

/-- C1 (corrected): for the failure modes the providers actually handle —
the fetch returning None, a ValueError from the supply coercion, a failed
price guard, or a caught price-extraction error (all and only the fallback
class) — the provider returns the unexpired cached value unchanged, and
Absent (None) when its cache is empty or expired. Fetch outcomes that
raise propagate instead (see the counterexample). -/
theorem c1_amended_fallback (fr : FetchResult) (now : ℚ) (c : Cache) :
    (supplyClass fr = PClass.fallback →
      (∀ v T, c.entry = some (v, T) → now < T + supplyTTL →
        get_circulating_supply fr now c = (POutcome.ret (some v), c)) ∧
      (∀ v T, c.entry = some (v, T) → T + supplyTTL ≤ now →
        get_circulating_supply fr now c = (POutcome.ret none, c)) ∧
      (c.entry = none → get_circulating_supply fr now c = (POutcome.ret none, c))) ∧
    (priceClass fr = PClass.fallback →
      (∀ v T, c.entry = some (v, T) → now < T + priceTTL →
        get_andr_price fr now c = (POutcome.ret (some v), c)) ∧
      (∀ v T, c.entry = some (v, T) → T + priceTTL ≤ now →
        get_andr_price fr now c = (POutcome.ret none, c)) ∧
      (c.entry = none → get_andr_price fr now c = (POutcome.ret none, c))) := by
  constructor
  · intro hf
    refine ⟨?_, ?_, ?_⟩
    · intro v T hc hlt
      rw [supply_eq_classAct, hf]
      simp [classAct, cacheGet, hc, hlt]
    · intro v T hc hge
      rw [supply_eq_classAct, hf]
      simp [classAct, cacheGet, hc, not_lt.2 hge]
    · intro hc
      rw [supply_eq_classAct, hf]
      simp [classAct, cacheGet, hc]
  · intro hf
    refine ⟨?_, ?_, ?_⟩
    · intro v T hc hlt
      rw [price_eq_classAct, hf]
      simp [classAct, cacheGet, hc, hlt]
    · intro v T hc hge
      rw [price_eq_classAct, hf]
      simp [classAct, cacheGet, hc, not_lt.2 hge]
    · intro hc
      rw [price_eq_classAct, hf]
      simp [classAct, cacheGet, hc]

/-- C1 witness: the amended fallback behavior at concrete inputs (warm
unexpired supply cache, expired price cache, empty supply cache). -/
theorem c1_amended_fallback_witness :
    get_circulating_supply FetchResult.none_ 10 ⟨some (42, 0)⟩
      = (POutcome.ret (some 42), ⟨some (42, 0)⟩) ∧
    get_andr_price FetchResult.none_ 1000 ⟨some (7, 0)⟩
      = (POutcome.ret none, ⟨some (7, 0)⟩) ∧
    get_circulating_supply FetchResult.none_ 0 ⟨none⟩ = (POutcome.ret none, ⟨none⟩) :=
  ⟨((c1_amended_fallback FetchResult.none_ 10 ⟨some (42, 0)⟩).1 rfl).1 42 0 rfl (by decide),
   ((c1_amended_fallback FetchResult.none_ 1000 ⟨some (7, 0)⟩).2 rfl).2.1 7 0 rfl (by decide),
   ((c1_amended_fallback FetchResult.none_ 0 ⟨none⟩).1 rfl).2.2 rfl⟩

/-- C2 counterexample: an endpoint answering 404 on every request. The
claim requires the non-200 response to be re-attempted up to the 3-attempt
budget; the fetcher issues exactly one request and reports failure. -/
theorem c2_counterexample :
    fetch_url_with_retries (fun _ => Attempt.resp 404 none) = (1, FetchResult.none_) := rfl

/-- C2 (corrected): the fetcher retries only server-error responses
(status 500 and above), up to the 3-attempt budget, then reports failure; a
non-200 response below 500 is reported as failure after a single attempt,
and a transport error is not retried at all — the exception is re-raised
at the attempt where it occurs. -/
theorem c2_amended_retry_policy :
    (∀ seq : ℕ → Attempt, (∀ i, i < 3 → (seq i).isServerErr = true) →
      (fetch_url_with_retries seq).1 = 3 ∧
      (fetch_url_with_retries seq).2 = FetchResult.none_) ∧
    (∀ (st : ℕ) (b : Option Json), st < 500 → st ≠ 200 →
      fetch_url_with_retries (fun _ => Attempt.resp st b) = (1, FetchResult.none_)) ∧
    (∀ seq : ℕ → Attempt, seq 0 = Attempt.err →
      fetch_url_with_retries seq = (1, FetchResult.raises)) := by
  refine ⟨?_, ?_, ?_⟩
  · intro seq h
    obtain ⟨st0, b0, h0, hs0⟩ := isServerErr_elim (h 0 (by omega))
    obtain ⟨st1, b1, h1, hs1⟩ := isServerErr_elim (h 1 (by omega))
    obtain ⟨st2, b2, h2, hs2⟩ := isServerErr_elim (h 2 (by omega))
    have e1 : retryGo seq 3 0 = retryGo seq 2 1 :=
      retryGo_retry seq 2 0 st0 b0 h0 hs0 (by omega)
    have e2 : retryGo seq 2 1 = retryGo seq 1 2 :=
      retryGo_retry seq 1 1 st1 b1 h1 hs1 (by omega)
    have e3 : retryGo seq 1 2 = (3, GetOutcome.resp st2 b2) :=
      retryGo_return seq 0 2 st2 b2 h2 (Or.inr rfl)
    have hf := fetch_of_retry_resp seq 3 st2 b2 ((e1.trans e2).trans e3) (by omega)
    exact ⟨by rw [hf], by rw [hf]⟩
  · intro st b hlt hne
    have e : retryGo (fun _ => Attempt.resp st b) 3 0 = (1, GetOutcome.resp st b) :=
      retryGo_return (fun _ => Attempt.resp st b) 2 0 st b rfl (Or.inl hlt)
    exact fetch_of_retry_resp _ 1 st b e hne
  · intro seq h0
    exact fetch_of_retry_raised seq 1 (retryGo_err seq 2 0 h0)

/-- C2 witness: the amended retry policy at concrete inputs (persistent
500, a single 418, a transport error). -/
theorem c2_amended_retry_policy_witness :
    (fetch_url_with_retries (fun _ => Attempt.resp 500 none)).1 = 3 ∧
    fetch_url_with_retries (fun _ => Attempt.resp 418 none) = (1, FetchResult.none_) ∧
    fetch_url_with_retries (fun _ => Attempt.err) = (1, FetchResult.raises) :=
  ⟨(c2_amended_retry_policy.1 (fun _ => Attempt.resp 500 none) (fun _ _ => rfl)).1,
   c2_amended_retry_policy.2.1 418 none (by omega) (by omega),
   c2_amended_retry_policy.2.2 (fun _ => Attempt.err) rfl⟩

/-- C3 counterexample: a 200 response whose body is not valid JSON makes
response.json() raise inside the fetcher, and the exception propagates out
of get_circulating_supply instead of collapsing to the failure path. -/
theorem c3_counterexample :
    (run_get_circulating_supply (fun _ => Attempt.resp 200 none) 0 ⟨none⟩).1
      = POutcome.raises := rfl

/-- C3 (corrected): the failure modes the providers catch do collapse to a
float-or-Absent return — fetches returning None, supply bodies that are
numbers, booleans or strings, price objects whose data field is absent or
a list — but exceptions do cross the provider boundary: a fetch that
raises (transport error, or a 200 body that is not valid JSON) propagates
through both providers, as do the uncaught TypeErrors of the supply
coercion and of the price guard. -/
theorem c3_amended_exception_boundary (fr : FetchResult) (now : ℚ) (c : Cache) :
    ((fr = FetchResult.none_ ∨ ∃ j, fr = FetchResult.val j ∧ coercibleShape j = true) →
      ∃ r, (get_circulating_supply fr now c).1 = POutcome.ret r) ∧
    ((fr = FetchResult.none_ ∨
        ∃ fields, fr = FetchResult.val (Json.obj fields) ∧ dataShapeSafe fields = true) →
      ∃ r, (get_andr_price fr now c).1 = POutcome.ret r) ∧
    (fr = FetchResult.raises →
      (get_circulating_supply fr now c).1 = POutcome.raises ∧
      (get_andr_price fr now c).1 = POutcome.raises) := by
  refine ⟨?_, ?_, ?_⟩
  · rintro (rfl | ⟨j, rfl, hj⟩)
    · exact ⟨cacheGet supplyTTL now c, rfl⟩
    · rw [supply_eq_classAct]
      exact classAct_ne_raises _ _ _ _ (supplyClass_coercible_ne_raises j hj)
  · rintro (rfl | ⟨fields, rfl, hf⟩)
    · exact ⟨cacheGet priceTTL now c, rfl⟩
    · rw [price_eq_classAct]
      exact classAct_ne_raises _ _ _ _ (priceClass_safe_ne_raises fields hf)
  · rintro rfl
    exact ⟨rfl, rfl⟩

/-- C3 witness: the amended boundary at concrete inputs (a numeric-string
supply body, a price object with an empty data list, a raising fetch). -/
theorem c3_amended_exception_boundary_witness :
    (get_circulating_supply (FetchResult.val (Json.str "12.5")) 0 ⟨none⟩).1
      = POutcome.ret (some (25 / 2)) ∧
    (get_andr_price (FetchResult.val (Json.obj [(dataKey, Json.arr [])])) 0 ⟨none⟩).1
      = POutcome.ret none ∧
    (get_andr_price FetchResult.raises 0 ⟨none⟩).1 = POutcome.raises := by
  refine ⟨?_, ?_, ((c3_amended_exception_boundary FetchResult.raises 0 ⟨none⟩).2.2 rfl).2⟩
  · exact ((c3_amended_exception_boundary (FetchResult.val (Json.str "12.5")) 0 ⟨none⟩).1
      (Or.inr ⟨Json.str "12.5", rfl, rfl⟩)).elim (fun _ _ => by decide)
  · exact ((c3_amended_exception_boundary
        (FetchResult.val (Json.obj [(dataKey, Json.arr [])])) 0 ⟨none⟩).2.1
      (Or.inr ⟨[(dataKey, Json.arr [])], rfl, rfl⟩)).elim (fun _ _ => by decide)

/-- C4 counterexample: an endpoint failing with a transport error on every
request. The claim requires exactly 3 attempts followed by a failure
report; the fetcher issues a single attempt and the error propagates. -/
theorem c4_counterexample :
    fetch_url_with_retries (fun _ => Attempt.err) = (1, FetchResult.raises) := rfl

/-- C4 (corrected): the fetcher never issues a 4th request — at most 3
attempts against any endpoint — and against an endpoint persistently
answering a server-error status it issues exactly 3 attempts and then
reports failure; persistent transport errors or non-retryable statuses end
after the first attempt (see the counterexample). -/
theorem c4_amended_attempt_bound :
    (∀ seq : ℕ → Attempt, (fetch_url_with_retries seq).1 ≤ 3) ∧
    fetch_url_with_retries (fun _ => Attempt.resp 503 none) = (3, FetchResult.none_) := by
  constructor
  · intro seq
    have h := retryGo_fst_le seq 3 0
    rw [fetch_fst]
    omega
  · rfl

/-- C5 (confirmed): whenever either provider hands the handler Absent
(None), the reply is exactly the user-facing failure text — never a
partial numeric result. -/
theorem c5_absent_gives_failure (s p : Option ℚ) (h : s = none ∨ p = none) :
    market_cap_reply s p = failText := by
  rcases h with rfl | rfl
  · cases p <;> rfl
  · cases s <;> rfl

/-- C5 witness: a successful price with an Absent supply yields the
failure text. -/
theorem c5_absent_gives_failure_witness :
    market_cap_reply none (some 5) = failText :=
  c5_absent_gives_failure none (some 5) (Or.inl rfl)

/-- C6 (confirmed): with circulating supply 120,000,000 and price 0.0823
(the binary64 value of the literal), the handler multiplies in binary64,
rounds to the nearest integer, groups thousands and prefixes a dollar
sign, replying with $9,876,000. -/
theorem c6_market_cap_formatting :
    format_market_cap (mulDouble 120000000 (roundDouble (823 / 10000))) = "$9,876,000" ∧
    market_cap_reply (some 120000000) (some (roundDouble (823 / 10000)))
      = "ANDR Market Cap: $9,876,000" := by
  exact ⟨by decide, by decide⟩

/-- C7 (confirmed): the supply cache lives 24 hours and the price cache 5
minutes, and a single-slot cache written at time T serves the value
unchanged at every time below T plus TTL and is absent (with no newer
write) from T plus TTL onwards. -/
theorem c7_cache_ttl :
    supplyTTL = 86400 ∧ priceTTL = 300 ∧
    ∀ (ttl T t v : ℚ) (c : Cache),
      (t < T + ttl → cacheGet ttl t (cacheWrite T v c) = some v) ∧
      (T + ttl ≤ t → cacheGet ttl t (cacheWrite T v c) = none) := by
  refine ⟨rfl, rfl, ?_⟩
  intro ttl T t v c
  constructor
  · intro h; simp [cacheGet, cacheWrite, h]
  · intro h; simp [cacheGet, cacheWrite, not_lt.2 h]

/-- C7 witness: a supply-cache read one second before expiry serves the
value; a price-cache read exactly at expiry is absent. -/
theorem c7_cache_ttl_witness :
    cacheGet supplyTTL 86399 (cacheWrite 0 5 ⟨none⟩) = some 5 ∧
    cacheGet priceTTL 300 (cacheWrite 0 5 ⟨none⟩) = none :=
  ⟨(c7_cache_ttl.2.2 supplyTTL 0 86399 5 ⟨none⟩).1 (by decide),
   (c7_cache_ttl.2.2 priceTTL 0 300 5 ⟨none⟩).2 (by decide)⟩

/-- C8 (confirmed): each provider leaves its cache untouched on every
non-success path (fetch failure, raised exception, failed coercion or
extraction), and the only mutation either ever performs is overwriting its
own slot with the freshly returned value — a cache is never cleared. -/
theorem c8_cache_write_only_on_success (fr : FetchResult) (now : ℚ) (c : Cache) :
    ((get_circulating_supply fr now c).2 = c ∨
      ∃ j v, fr = FetchResult.val j ∧ pyFloat j = Except.ok v ∧
        (get_circulating_supply fr now c).1 = POutcome.ret (some v) ∧
        (get_circulating_supply fr now c).2 = cacheWrite now v c) ∧
    ((get_andr_price fr now c).2 = c ∨
      ∃ v, (get_andr_price fr now c).1 = POutcome.ret (some v) ∧
        (get_andr_price fr now c).2 = cacheWrite now v c) := by
  constructor
  · cases fr with
    | raises => exact Or.inl rfl
    | none_ => exact Or.inl rfl
    | val j =>
        rcases hp : pyFloat j with e | v
        · cases e <;> exact Or.inl (by simp [get_circulating_supply, hp])
        · exact Or.inr ⟨j, v, rfl, hp, by simp [get_circulating_supply, hp],
            by simp [get_circulating_supply, hp]⟩
  · rw [price_eq_classAct]
    cases priceClass fr with
    | raises => exact Or.inl rfl
    | fallback => exact Or.inl rfl
    | success v => exact Or.inr ⟨v, rfl, rfl⟩

/-- C9 (confirmed): two invocations at times t1 and t2, both inside every
cache entry's TTL window, against upstream endpoints whose behavior is
unchanged, produce identical replies (the second runs on the caches the
first leaves behind). -/
theorem c9_idempotent_within_ttl (supSeq priSeq : ℕ → Attempt) (t1 t2 : ℚ) (cs : Caches)
    (ht : t1 ≤ t2)
    (hs : ∀ v T, cs.circulating_supply_cache.entry = some (v, T) → t2 < T + supplyTTL)
    (hp : ∀ v T, cs.price_cache.entry = some (v, T) → t2 < T + priceTTL) :
    (market_cap supSeq priSeq t2 (market_cap supSeq priSeq t1 cs).2).1
      = (market_cap supSeq priSeq t1 cs).1 := by
  have ks := cacheGet_window supplyTTL t1 t2 cs.circulating_supply_cache ht hs
  have kp := cacheGet_window priceTTL t1 t2 cs.price_cache ht hp
  rw [market_cap_class supSeq priSeq t1 cs]
  rcases hsc : supplyClass (fetch_url_with_retries supSeq).2 with _ | v | _ <;>
    rcases hpc : priceClass (fetch_url_with_retries priSeq).2 with _ | w | _ <;>
    rw [market_cap_class] <;>
    simp [hsc, hpc, ks, kp]

/-- C9 witness: two back-to-back invocations with a persistent 404 on both
endpoints, a warm supply cache and a cold price cache reply identically. -/
theorem c9_idempotent_within_ttl_witness :
    (market_cap (fun _ => Attempt.resp 404 none) (fun _ => Attempt.resp 404 none) 1
        (market_cap (fun _ => Attempt.resp 404 none) (fun _ => Attempt.resp 404 none) 0
          ⟨⟨some (2, 0)⟩, ⟨none⟩⟩).2).1
      = (market_cap (fun _ => Attempt.resp 404 none) (fun _ => Attempt.resp 404 none) 0
          ⟨⟨some (2, 0)⟩, ⟨none⟩⟩).1 := by
  apply c9_idempotent_within_ttl _ _ 0 1 ⟨⟨some (2, 0)⟩, ⟨none⟩⟩ (by decide)
  · intro v T h
    simp only [Option.some.injEq, Prod.mk.injEq] at h
    obtain ⟨rfl, rfl⟩ := h
    decide
  · intro v T h
    simp at h

/-- C10 (confirmed): a product lying exactly halfway between two integers
is displayed rounded half to even by the format step, not half up: the
exact product 2.5 renders as $2 (and 3.5 as $4). -/
theorem c10_round_half_even :
    mulDouble 5 (1 / 2) = 5 / 2 ∧
    format_market_cap (mulDouble 5 (1 / 2)) = "$2" ∧
    format_market_cap (mulDouble 7 (1 / 2)) = "$4" := by
  exact ⟨by decide, by decide, by decide⟩

end ClaimProofs

end AndromedaBot
